import Mathlib

/-!
Verification development for the Aetherion voice-companion repository.

The core under study is the natural-language command parser
(`src/lib/command-parser.ts`) and the WhatsApp bridge adapter
(`WhatsAppService`, the service file wrapping `whatsapp-web.js`).
JavaScript strings are modelled as `List Char` (ASCII fragment), the
regular expressions of the parser are compiled by hand into executable
scanning functions with JS leftmost-match / alternation-order /
greedy-lazy semantics, and the stateful bridge is modelled as explicit
state passing with client probes and environment capabilities given as
`Except` values (a thrown JS exception is `Except.error`).
-/

namespace Aetherion

/-- JS strings are modelled as lists of characters. -/
abbrev Str := List Char

/-- ASCII lower-casing of one character, as `String.prototype.toLowerCase`
acts on the ASCII fragment we model. -/
def lowerChar (c : Char) : Char :=
  if 65 ≤ c.toNat ∧ c.toNat ≤ 90 then Char.ofNat (c.toNat + 32) else c

/-- `toLowerCase` on a whole string. -/
def lowerS (s : Str) : Str := s.map lowerChar

/-- ASCII letter test: the character class `[a-z]` under the `i` flag. -/
def isAlphaCh (c : Char) : Bool :=
  (97 ≤ c.toNat && c.toNat ≤ 122) || (65 ≤ c.toNat && c.toNat ≤ 90)

/-- Whitespace test for `\s` / `trim` (ASCII fragment). -/
def isWsCh (c : Char) : Bool :=
  c == ' ' || c == '\t' || c == '\n' || c == '\r'

/-- A single or double quote, for the quote-stripping replaces. -/
def isQuoteCh (c : Char) : Bool :=
  c.toNat == 34 || c.toNat == 39

/-- `String.prototype.trim` (both ends). -/
def trimS (s : Str) : Str :=
  ((s.dropWhile isWsCh).reverse.dropWhile isWsCh).reverse

/-- Does `pat` occur at the start of `s` (exact characters)? -/
def isPrefixB : Str → Str → Bool
  | [], _ => true
  | _ :: _, [] => false
  | p :: ps, c :: cs => p == c && isPrefixB ps cs

/-- Case-insensitive prefix test; `pat` is given lower-case. -/
def isPrefixCI (pat s : Str) : Bool := isPrefixB pat (lowerS s)

/-- Case-insensitive: if lower-cased `pat` starts `s`, return the rest of `s`
(original case), else `none`. -/
def stripCI (pat s : Str) : Option Str :=
  if isPrefixCI pat s then some (s.drop pat.length) else none

/-- `hay.includes(pat)`: substring occurrence (exact characters). -/
def containsStr (hay pat : Str) : Bool :=
  isPrefixB pat hay ||
    match hay with
    | [] => false
    | _ :: t => containsStr t pat

/-- `hay.indexOf(pat)`: index of the first occurrence. -/
def indexOfStr (hay pat : Str) : Option Nat :=
  if isPrefixB pat hay then some 0
  else
    match hay with
    | [] => none
    | _ :: t => (indexOfStr t pat).map (· + 1)

/-- `hay.split(pat)[1]` for nonempty `pat`: the segment strictly between the
first occurrence of `pat` and the following occurrence (or the end). `none`
when `pat` does not occur (index 1 of the split array is `undefined`). -/
def splitSecondSeg (hay pat : Str) : Option Str :=
  match pat with
  | [] => none
  | _ :: _ =>
    match indexOfStr hay pat with
    | none => none
    | some i =>
      let rest := hay.drop (i + pat.length)
      match indexOfStr rest pat with
      | none => some rest
      | some j => some (rest.take j)

/-- Accumulator pass for `splitWs`: `cur` holds the current word reversed. -/
def splitWsGo (cur : Str) : Str → List Str
  | [] => if cur.isEmpty then [] else [cur.reverse]
  | c :: t =>
    if isWsCh c then
      if cur.isEmpty then splitWsGo [] t else cur.reverse :: splitWsGo [] t
    else splitWsGo (c :: cur) t

/-- `s.split(/\s+/)` as used in the sources: always applied to a trimmed
string, where it yields the whitespace-separated words, and `[""]` on the
empty string. -/
def splitWs (s : Str) : List Str :=
  match s with
  | [] => [[]]
  | _ => splitWsGo [] s

/-! ### Hand-compiled regular-expression machinery

Each regex of `command-parser.ts` is compiled into a scanning function
with JavaScript semantics: leftmost match wins, alternatives are tried
in written order, `+` is greedy and `+?` is lazy.  All matching is
case-insensitive (`i` flag) while captures keep the original characters. -/

/-- Try a position matcher at every position of `s`, leftmost first. -/
def scanFor (m : Str → Option β) : Str → Option β
  | [] => none
  | s@(_ :: t) =>
    match m s with
    | some r => some r
    | none => scanFor m t

/-- Lazy capture `(.+?)` followed by a terminator: the shortest nonempty
prefix of `s` after which `term` holds on the remainder. -/
def lazyCap (term : Str → Bool) (s : Str) : Option Str :=
  go 1 s.length
where
  go (k fuel : Nat) : Option Str :=
    match fuel with
    | 0 => none
    | fuel + 1 =>
      if k ≤ s.length then
        if term (s.drop k) then some (s.take k) else go (k + 1) fuel
      else none

/-- `\s+(.+?)term`: greedy run of whitespace, then a lazy capture.  The
whitespace run backtracks from maximal length down to 1 when the rest of
the pattern cannot match, as a JS engine does. -/
def wsThenLazy (term : Str → Bool) (rest : Str) : Option Str :=
  go ((rest.takeWhile isWsCh).length)
where
  go : Nat → Option Str
  | 0 => none
  | w + 1 =>
    match lazyCap term (rest.drop (w + 1)) with
    | some c => some c
    | none => go w

/-- `\s+` then a case-insensitive literal: on success, the remainder. -/
def wsThen (pat s : Str) : Option Str :=
  let w := (s.takeWhile isWsCh).length
  if w == 0 then none else stripCI pat (s.drop w)

/-- Match `[a-z]+(?:\s+[a-z]+)?` (case-insensitive, greedy) at the start of
`s`; returns the captured characters and the remainder.  The optional
second word is taken whenever present (nothing after it can force
backtracking in the source regexes). -/
def alphaWords12 (s : Str) : Option (Str × Str) :=
  let w1 := s.takeWhile isAlphaCh
  if w1.isEmpty then none
  else
    let r1 := s.drop w1.length
    let ws := r1.takeWhile isWsCh
    if ws.isEmpty then some (w1, r1)
    else
      let r2 := r1.drop ws.length
      let w2 := r2.takeWhile isAlphaCh
      if w2.isEmpty then some (w1, r1)
      else some (w1 ++ ws ++ w2, r2.drop w2.length)

/-! ### Command parser data model (`src/lib/command-parser.ts`) -/

/-- The `type` field of `ParsedCommand`. -/
inductive CmdType
  | whatsapp
  | email
  | calendar
  | general
deriving DecidableEq, Repr

/-- The `action` field of `ParsedCommand`. -/
inductive CmdAction
  | check
  | send
  | reply
  | read
  | unknown
deriving DecidableEq, Repr

/-- The optional `filters` record of `ParsedCommand`. -/
structure CmdFilters where
  unread : Option Bool
  contact : Option String
  limit : Option Nat
deriving DecidableEq, Repr

/-- `ParsedCommand` from `command-parser.ts`; absent optional fields are
`none`. -/
structure ParsedCommand where
  type : CmdType
  action : CmdAction
  target : Option String := none
  message : Option String := none
  replyTo : Option String := none
  filters : Option CmdFilters := none
deriving DecidableEq, Repr

/-! ### `extractContactName` -/

/-- Stoplist of common words filtered out of a regex-extracted name. -/
def commonWords : List Str :=
  ["the", "a", "an", "your", "my", "his", "her", "their", "this", "that",
   "message", "text", "chat"].map String.data

/-- One position of the patterns
`/(?:w₁|w₂|…)\s+([a-z]+(?:\s+[a-z]+)?)/i`: try each preposition in
alternation order, then whitespace, then one or two captured words. -/
def namePatAt (preps : List Str) (s : Str) : Option Str :=
  preps.findSome? fun p =>
    match stripCI p s with
    | none => none
    | some rest =>
      let ws := rest.takeWhile isWsCh
      if ws.isEmpty then none
      else (alphaWords12 (rest.drop ws.length)).map Prod.fst

/-- Fixed phrases searched by the second half of `extractContactName`. -/
def afterPhrases : List Str :=
  ["message from", "text from", "chat with", "send to", "reply to",
   "message to"].map String.data

/-- Second half of `extractContactName`: after a fixed phrase, take the
first whitespace-separated token if it is longer than 2 characters and
purely alphabetic. -/
def nameAfterPhrase (lowerMessage message : Str) : Option Str :=
  afterPhrases.findSome? fun phrase =>
    match indexOfStr lowerMessage phrase with
    | none => none
    | some i =>
      let after := trimS (message.drop (i + phrase.length))
      match (splitWs after).head? with
      | none => none
      | some w =>
        if 2 < w.length && w.all isAlphaCh then some w else none

/-- `extractContactName`: three preposition regexes with a stoplist, then
the fixed-phrase fallback. -/
def extractContactName (message : Str) : Option Str :=
  let lowerMessage := lowerS message
  let tryPat (preps : List Str) : Option Str :=
    match scanFor (namePatAt preps) message with
    | none => none
    | some name =>
      let name := trimS name
      if commonWords.contains (lowerS name) then none else some name
  match tryPat (["from", "to", "with"].map String.data) with
  | some n => some n
  | none =>
    match tryPat (["contact", "person"].map String.data) with
    | some n => some n
    | none =>
      match tryPat (["friend", "buddy"].map String.data) with
      | some n => some n
      | none => nameAfterPhrase lowerMessage message

/-! ### `isFillerPhrase`, quote/suffix stripping -/

/-- Articles recognised by the filler patterns. -/
def articles : List Str := ["a", "an", "the"].map String.data

/-- Generic nouns recognised by the filler patterns. -/
def fillerNouns : List Str := ["message", "text", "chat"].map String.data

/-- `isFillerPhrase`: the anchored patterns `^(a|an|the)\s+noun$` and
`^noun$` for noun ∈ message/text/chat, on the lower-cased trimmed text. -/
def isFillerPhrase (text : Str) : Bool :=
  match splitWs (trimS (lowerS text)) with
  | [w] => fillerNouns.contains w
  | [d, n] => articles.contains d && fillerNouns.contains n
  | _ => false

/-- `text.replace(/^["']|["']$/g, '')`: drop one leading and one trailing
quote character. -/
def stripQuotes (t : Str) : Str :=
  let t1 := match t with
    | c :: rest => if isQuoteCh c then rest else t
    | [] => []
  match t1.reverse with
  | c :: rest => if isQuoteCh c then rest.reverse else t1
  | [] => []

/-- Does `s` match `^\s+to\s+[a-z]+$` entirely? -/
def isToNameSuffix (s : Str) : Bool :=
  let w1 := s.takeWhile isWsCh
  if w1.isEmpty then false
  else
    match stripCI "to".data (s.drop w1.length) with
    | none => false
    | some r =>
      let w2 := r.takeWhile isWsCh
      if w2.isEmpty then false
      else
        let r2 := r.drop w2.length
        let al := r2.takeWhile isAlphaCh
        !al.isEmpty && (r2.drop al.length).isEmpty

/-- `text.replace(/\s+to\s+[a-z]+$/i, '')`: remove a trailing
` to <name>` suffix, leftmost match first. -/
def stripTrailingToName (t : Str) : Str :=
  match go t with
  | none => t
  | some i => t.take i
where
  go : Str → Option Nat
  | [] => none
  | s@(_ :: rest) =>
    if isToNameSuffix s then some 0 else (go rest).map (· + 1)

/-! ### `extractReplyMessage` -/

/-- Shared post-processing of a reply capture: trim, strip a trailing
`to <name>`, strip surrounding quotes; empty results are discarded. -/
def processReplyCapture (cap : Str) : Option Str :=
  let text := stripQuotes (stripTrailingToName (trimS cap))
  if text.isEmpty then none else some text

/-- `/(?:reply|respond)\s+(?:with|saying)\s+(.+?)$/i` at one position. -/
def replyPat1At (s : Str) : Option Str :=
  (["reply", "respond"].map String.data).findSome? fun v =>
    match stripCI v s with
    | none => none
    | some r1 =>
      (["with", "saying"].map String.data).findSome? fun mk =>
        match wsThen mk r1 with
        | none => none
        | some r2 => wsThenLazy (·.isEmpty) r2

/-- `/(?:reply|respond)\s+(.+?)$/i` at one position. -/
def replyPat2At (s : Str) : Option Str :=
  (["reply", "respond"].map String.data).findSome? fun v =>
    match stripCI v s with
    | none => none
    | some r1 => wsThenLazy (·.isEmpty) r1

/-- `extractReplyMessage` from `command-parser.ts`. -/
def extractReplyMessage (message : Str) : Option Str :=
  match (scanFor replyPat1At message).bind processReplyCapture with
  | some t => some t
  | none => (scanFor replyPat2At message).bind processReplyCapture

/-! ### `extractMessageToSend` -/

/-- One anchored filler pattern `^w₁\s+(?:a|the|an)\s+w₃\s+to` (the four
`fillerPhrases` all share this shape). -/
def fillerPatTest (w1 w3 : Str) (s : Str) : Bool :=
  match stripCI w1 s with
  | none => false
  | some r1 =>
    articles.any fun art =>
      match wsThen art r1 with
      | none => false
      | some r2 =>
        match wsThen w3 r2 with
        | none => false
        | some r3 => (wsThen "to".data r3).isSome

/-- The four `fillerPhrases` patterns as (first word, noun) pairs, in
source order. -/
def fillerPhrasePats : List (Str × Str) :=
  [("send", "message"), ("text", "message"), ("send", "text"),
   ("message", "message")].map fun p => (p.1.data, p.2.data)

/-- The filler gate of `extractMessageToSend`: for each matching filler
pattern, if no contact is extractable, or nothing meaningful follows the
contact name, the whole extraction returns `undefined` (`some` here means
"return `none` from `extractMessageToSend` now"). -/
def fillerGateTrips (lowerMessage message : Str) : Bool :=
  fillerPhrasePats.any fun p =>
    fillerPatTest p.1 p.2 message &&
      match extractContactName message with
      | none => true
      | some c =>
        match splitSecondSeg lowerMessage (lowerS c) with
        | none => true
        | some seg => (trimS seg).length < 3

/-- Markers of the first explicit pattern
`/(?:saying|with|that says|which says|message is|text is)\s+(.+?)(?:\s+to\s+|\s+from\s+|$)/i`. -/
def explicitMarkers : List Str :=
  ["saying", "with", "that says", "which says", "message is",
   "text is"].map String.data

/-- Terminator `(?:\s+to\s+|\s+from\s+|$)` of the first explicit pattern. -/
def toFromOrEnd (u : Str) : Bool :=
  u.isEmpty ||
    (match wsThen "to".data u with
     | some r => !(r.takeWhile isWsCh).isEmpty
     | none => false) ||
    (match wsThen "from".data u with
     | some r => !(r.takeWhile isWsCh).isEmpty
     | none => false)

/-- First explicit pattern at one position. -/
def explicitPat1At (s : Str) : Option Str :=
  explicitMarkers.findSome? fun mk =>
    match stripCI mk s with
    | none => none
    | some rest => wsThenLazy toFromOrEnd rest

/-- Second explicit pattern
`/(?:send|text)\s+(.+?)\s+(?:saying|with|that says)/i` at one position. -/
def explicitPat2At (s : Str) : Option Str :=
  (["send", "text"].map String.data).findSome? fun v =>
    match stripCI v s with
    | none => none
    | some rest =>
      wsThenLazy
        (fun u =>
          (["saying", "with", "that says"].map String.data).any fun mk =>
            (wsThen mk u).isSome)
        rest

/-- Post-processing shared by the two explicit patterns: trim, strip
quotes, strip a trailing ` to <name>`, reject empty and filler. -/
def processExplicitCapture (cap : Str) : Option Str :=
  let text := stripTrailingToName (stripQuotes (trimS cap))
  if !text.isEmpty && !isFillerPhrase text then some text else none

/-- `/(?:send|text)\s+(.+?)\s+to\s+([a-z]+(?:\s+[a-z]+)?)/i` at one
position (only capture 1 is used by the source). -/
def sendToPatAt (s : Str) : Option Str :=
  (["send", "text"].map String.data).findSome? fun v =>
    match stripCI v s with
    | none => none
    | some rest =>
      wsThenLazy
        (fun u =>
          match wsThen "to".data u with
          | none => false
          | some r =>
            let w := r.takeWhile isWsCh
            !w.isEmpty && !((r.drop w.length).takeWhile isAlphaCh).isEmpty)
        rest

/-- `/(?:send|text)\s+to\s+([a-z]+(?:\s+[a-z]+)?)\s+(.+?)$/i` at one
position; returns capture 2.  The greedy two-word name backtracks to one
word when nothing would remain for the message capture. -/
def sendToContactPatAt (s : Str) : Option Str :=
  (["send", "text"].map String.data).findSome? fun v =>
    match stripCI v s with
    | none => none
    | some r1 =>
      match wsThen "to".data r1 with
      | none => none
      | some r2 =>
        let ws2 := r2.takeWhile isWsCh
        if ws2.isEmpty then none
        else
          let r3 := r2.drop ws2.length
          let w1 := r3.takeWhile isAlphaCh
          if w1.isEmpty then none
          else
            let r4 := r3.drop w1.length
            let greedy : Option Str :=
              let ws3 := r4.takeWhile isWsCh
              if ws3.isEmpty then none
              else
                let r5 := r4.drop ws3.length
                let w2 := r5.takeWhile isAlphaCh
                if w2.isEmpty then none
                else wsThenLazy (·.isEmpty) (r5.drop w2.length)
            match greedy with
            | some c => some c
            | none => wsThenLazy (·.isEmpty) r4

/-- Post-processing of the send-to captures: trim, strip quotes, reject
filler and empty (no trailing-name stripping here, as in the source). -/
def processSendToCapture (cap : Str) : Option Str :=
  let text := stripQuotes (trimS cap)
  if !isFillerPhrase text && !text.isEmpty then some text else none

/-- Stopwords skipped by the token-scanning fallback. -/
def skipWords : List Str :=
  ["send", "text", "message", "to", "with", "saying", "that", "a", "an",
   "the"].map String.data

/-- Delimiters ending the message in the token-scanning fallback. -/
def delimWords : List Str :=
  ["to", "from", "contact", "in", "whatsapp"].map String.data

/-- Join words with single spaces (`Array.prototype.join(' ')`). -/
def joinWords : List Str → Str
  | [] => []
  | [w] => w
  | w :: ws => w ++ [' '] ++ joinWords ws

/-- Index of the first word that is not a stopword and longer than one
character. -/
def findContentStart (ws : List Str) : Option Nat :=
  go ws 0
where
  go : List Str → Nat → Option Nat
  | [], _ => none
  | w :: rest, i =>
    if !skipWords.contains (lowerS w) && 1 < w.length then some i
    else go rest (i + 1)

/-- Index (≥ `i`) of the first delimiter word, or the word count. -/
def findMessageEnd (ws : List Str) (i : Nat) : Nat :=
  go (ws.drop i) i
where
  go : List Str → Nat → Nat
  | [], j => j
  | w :: rest, j =>
    if delimWords.contains (lowerS w) then j else go rest (j + 1)

/-- Token-scanning fallback of `extractMessageToSend`. -/
def tokenFallback (lowerMessage message : Str) : Option Str :=
  let idxs := [indexOfStr lowerMessage "send".data,
               indexOfStr lowerMessage "text".data].filterMap id
  match idxs.min? with
  | none => none
  | some start =>
    let after := trimS (message.drop start)
    let ws := splitWs after
    match findContentStart ws with
    | none => none
    | some i =>
      let j := findMessageEnd ws i
      let msgWords := (ws.drop i).take (j - i)
      if msgWords.isEmpty then none
      else
        let extracted := joinWords msgWords
        if isFillerPhrase extracted then none else some extracted

/-- `extractMessageToSend` from `command-parser.ts`: filler gate, two
explicit marker patterns, two send-to patterns, token fallback. -/
def extractMessageToSend (message : Str) : Option Str :=
  let lowerMessage := lowerS message
  if fillerGateTrips lowerMessage message then none
  else
    match (scanFor explicitPat1At message).bind processExplicitCapture with
    | some t => some t
    | none =>
      match (scanFor explicitPat2At message).bind processExplicitCapture with
      | some t => some t
      | none =>
        match (scanFor sendToPatAt message).bind processSendToCapture with
        | some t => some t
        | none =>
          match (scanFor sendToContactPatAt message).bind
              processSendToCapture with
          | some t => some t
          | none => tokenFallback lowerMessage message

/-! ### `parseWhatsAppCommand` and `parseCommand` -/

/-- Trigger of the `check` branch of `parseWhatsAppCommand`. -/
def checkTrigger (lowerMessage : Str) : Bool :=
  containsStr lowerMessage "new message".data ||
  containsStr lowerMessage "any message".data ||
  containsStr lowerMessage "check message".data ||
  containsStr lowerMessage "unread".data ||
  containsStr lowerMessage "new text".data ||
  containsStr lowerMessage "read message".data ||
  (containsStr lowerMessage "read".data &&
    containsStr lowerMessage "whatsapp".data)

/-- Trigger of the `send` branch. -/
def sendTrigger (lowerMessage : Str) : Bool :=
  containsStr lowerMessage "send".data ||
  (containsStr lowerMessage "text".data &&
    !containsStr lowerMessage "read".data) ||
  containsStr lowerMessage "message to".data ||
  (containsStr lowerMessage "send".data &&
    containsStr lowerMessage "to".data)

/-- Trigger of the `reply` branch. -/
def replyTrigger (lowerMessage : Str) : Bool :=
  containsStr lowerMessage "reply".data ||
  containsStr lowerMessage "respond".data ||
  (containsStr lowerMessage "reply".data &&
    containsStr lowerMessage "with".data)

/-- Trigger of the `read` branch. -/
def readTrigger (lowerMessage : Str) : Bool :=
  (containsStr lowerMessage "read".data &&
    !containsStr lowerMessage "new".data) ||
  containsStr lowerMessage "show message".data ||
  containsStr lowerMessage "get message".data ||
  containsStr lowerMessage "messages from".data

/-- `parseWhatsAppCommand`: prioritized action cascade, first match wins;
the `read` branch classifies only when a contact name is extractable. -/
def parseWhatsAppCommand (lowerMessage message : Str) : ParsedCommand :=
  let base : ParsedCommand := { type := .whatsapp, action := .unknown }
  if checkTrigger lowerMessage then
    match extractContactName message with
    | some c =>
      { base with
        action := .check
        target := some (String.mk c)
        filters := some { unread := some true, contact := some (String.mk c),
                          limit := none } }
    | none =>
      { base with
        action := .check
        filters := some { unread := some true, contact := none,
                          limit := none } }
  else if sendTrigger lowerMessage then
    { base with
      action := .send
      target := (extractContactName message).map String.mk
      message := (extractMessageToSend message).map String.mk }
  else if replyTrigger lowerMessage then
    { base with
      action := .reply
      target := (extractContactName message).map String.mk
      message := (extractReplyMessage message).map String.mk }
  else if readTrigger lowerMessage then
    match extractContactName message with
    | some c =>
      { base with
        action := .read
        target := some (String.mk c)
        filters := some { unread := none, contact := some (String.mk c),
                          limit := none } }
    | none => base
  else base

/-- `parseCommand`: keyword-based domain dispatch, first match wins in the
order messaging, email, calendar; `none` when no domain keyword occurs. -/
def parseCommand (userMessage : String) : Option ParsedCommand :=
  let message := userMessage.data
  let lowerMessage := trimS (lowerS message)
  if containsStr lowerMessage "whatsapp".data ||
      containsStr lowerMessage "message".data ||
      containsStr lowerMessage "text".data ||
      containsStr lowerMessage "chat".data then
    some (parseWhatsAppCommand lowerMessage message)
  else if containsStr lowerMessage "email".data ||
      containsStr lowerMessage "mail".data then
    some { type := .email, action := .unknown }
  else if containsStr lowerMessage "calendar".data ||
      containsStr lowerMessage "event".data ||
      containsStr lowerMessage "meeting".data then
    some { type := .calendar, action := .unknown }
  else none

/-! ### WhatsApp bridge adapter (`WhatsAppService`)

The adapter's mutable fields are a `SvcState`.  Reads of hidden fields of
the underlying `whatsapp-web.js` client (`pupPage`, `info`) are modelled
as `Except Unit (Option Unit)` probe outcomes supplied by the
environment: `.error ()` is a thrown property access, `.ok none` a
null/undefined value, `.ok (some ())` a truthy object. -/

/-- The adapter's own mutable state: `client` nullness and the three
status fields. -/
structure SvcState where
  clientPresent : Bool
  isReady : Bool
  isAuthenticated : Bool
  qrCode : Option String
deriving DecidableEq, Repr

/-- State after the constructor: client created, flags down, no QR. -/
def initialSvcState : SvcState :=
  { clientPresent := true, isReady := false, isAuthenticated := false,
    qrCode := none }

/-- Lifecycle events delivered by the underlying client. -/
inductive WaEvent
  | qr (payload : String)
  | ready
  | authenticated
  | authFailure
  | disconnected (reason : String)
  | message
deriving DecidableEq, Repr

/-- The event handlers registered by `setupEventHandlers`, as a state
transformer.  (The `disconnected` handler also schedules a reconnect when
the reason is not `LOGOUT`; that timer only re-runs `initialize` later
and does not change the fields here.) -/
def handleEvent (st : SvcState) : WaEvent → SvcState
  | .qr payload => { st with qrCode := some payload }
  | .ready => { st with isReady := true, isAuthenticated := true,
                        qrCode := none }
  | .authenticated => { st with isAuthenticated := true }
  | .authFailure => { st with isReady := false, isAuthenticated := false }
  | .disconnected _ => { st with isReady := false, isAuthenticated := false,
                                 qrCode := none }
  | .message => st

/-- Run a sequence of lifecycle events. -/
def runEvents (st : SvcState) (es : List WaEvent) : SvcState :=
  es.foldl handleEvent st

/-- `getQRCode()`. -/
def getQRCode (st : SvcState) : Option String := st.qrCode

/-- Outcome of reading one hidden client field. -/
abbrev Probe := Except Unit (Option Unit)

/-- The hidden client fields read defensively by the adapter. -/
structure ClientProbe where
  pupPage : Probe
  info : Probe
deriving Repr

/-- `isClientInitialized()`: `pupPage || info` inside a `try`, null and
undefined both count as uninitialized, any throw yields `false`. -/
def isClientInitialized (st : SvcState) (p : ClientProbe) : Bool :=
  if !st.clientPresent then false
  else
    match p.pupPage with
    | .error _ => false
    | .ok pp =>
      if pp.isSome then true
      else
        match p.info with
        | .error _ => false
        | .ok i => i.isSome

/-- `isConnected()` with explicit exception propagation: `.error` would be
an uncaught throw escaping the method.  The third branch may also flip
`isAuthenticated` on (state-sync repair), so the updated state is
returned alongside the boolean. -/
def isConnectedE (st : SvcState) (p : ClientProbe) :
    Except Unit (Bool × SvcState) :=
  if !st.clientPresent then .ok (false, st)
  else if st.isReady then .ok (true, st)
  else if st.isAuthenticated then
    -- both arms of the `try` return true; the `catch` returns the
    -- (true) `isAuthenticated` flag, so a throwing probe is swallowed
    match p.info with
    | .ok _ => .ok (true, st)
    | .error _ => .ok (st.isAuthenticated, st)
  else
    -- `try { if (isClientInitialized()) { info; ... } } catch {}` then
    -- `return false`
    if isClientInitialized st p then
      match p.info with
      | .error _ => .ok (false, st)  -- caught, falls through to false
      | .ok i =>
        if i.isSome then .ok (true, { st with isAuthenticated := true })
        else .ok (false, st)
    else .ok (false, st)

/-- The boolean a caller observes from `isConnected()`. -/
def isConnectedB (st : SvcState) (p : ClientProbe) : Bool :=
  match isConnectedE st p with
  | .ok (b, _) => b
  | .error _ => false

/-! ### Message operations

The underlying client is a capability record (`WaEnv`); each call either
throws (`.error ()`) or yields a value.  JS `||` chains over strings are
modelled with `""` as the falsy value of an absent/empty string. -/

/-- `a || b` for strings, with `""` falsy. -/
def orElseStr (a b : String) : String := if a = "" then b else a

/-- A chat as observed by the adapter; `name`/`idUser` use `""` for an
undefined property. -/
structure Chat where
  idSerialized : String
  idUser : String
  name : String
  unreadCount : Nat
  isGroup : Bool
deriving DecidableEq, Repr

/-- A raw message from the client: `msgId` is `message.id.id`, `fromId`
is `message.from` (possibly empty), timestamps are in seconds. -/
structure RawMsg where
  msgId : String
  body : String
  timestamp : Int
  fromId : String
  notifyName : String
  fromName : String
deriving DecidableEq, Repr

/-- A contact record from `getContacts()`. -/
structure Contact where
  pushname : String
  number : String
  idSerialized : String
deriving DecidableEq, Repr

/-- The capability surface of the underlying client used by the message
operations. -/
structure WaEnv where
  getChats : Except Unit (List Chat)
  fetchMessages : Chat → Nat → Except Unit (List RawMsg)
  getContacts : Except Unit (List Contact)
  getChatById : String → Except Unit Chat
  sendTo : String → String → Except Unit Unit
  replyTo : RawMsg → String → Except Unit Unit

/-- Errors thrown by the adapter's message operations.  `clientErr` is
any error raised by the underlying client and rethrown by the adapter. -/
inductive WaErr
  | notConnected
  | contactNotFound (name : String)
  | messageNotFound (id : String)
  | clientErr
deriving DecidableEq, Repr

/-- The `WhatsAppMessage` records the operations return. -/
structure WaMessage where
  id : String
  sender : String
  body : String
  tsMillis : Int
  isGroup : Bool
  contactName : Option String
deriving DecidableEq, Repr

/-- Comparator order of the two `sort` calls: timestamp descending. -/
def tsGe (a b : WaMessage) : Prop := b.tsMillis ≤ a.tsMillis

instance : DecidableRel tsGe :=
  fun a b => decidable_of_iff (b.tsMillis ≤ a.tsMillis) Iff.rfl

instance : IsTotal WaMessage tsGe :=
  ⟨fun a b => by unfold tsGe; exact le_total b.tsMillis a.tsMillis⟩

instance : IsTrans WaMessage tsGe :=
  ⟨fun _ _ _ h1 h2 => by unfold tsGe at *; exact le_trans h2 h1⟩

/-- `chat.name || chat.id?.user || 'Unknown'`. -/
def chatDisplayName (c : Chat) : String :=
  orElseStr c.name (orElseStr c.idUser "Unknown")

/-- The record pushed by `getRecentMessages` for one chat. -/
def recentMsgOf (displayName : String) (c : Chat) (m : RawMsg) : WaMessage :=
  { id := m.msgId
    sender := orElseStr displayName "Unknown"
    body := m.body
    tsMillis := m.timestamp * 1000
    isGroup := c.isGroup
    contactName := if displayName ≠ "Unknown" then some displayName else none }

/-- Should `getRecentMessages` skip this chat?  Mirrors
`contactName && displayName.toLowerCase() && !includes(...)`. -/
def recentSkips (contactName : Option String) (displayName : String) : Bool :=
  match contactName with
  | none => false
  | some cn =>
    cn ≠ "" && !(lowerS displayName.data).isEmpty &&
      !containsStr (lowerS displayName.data) (lowerS cn.data)

/-- The chat loop of `getRecentMessages`: one `fetchMessages({limit: 1})`
per chat, keeping only the head message; a fetch failure aborts the whole
operation (it is only caught by the outer handler, which rethrows). -/
def recentLoop (env : WaEnv) (contactName : Option String) :
    List Chat → Except Unit (List WaMessage)
  | [] => .ok []
  | c :: cs =>
    let displayName := chatDisplayName c
    if recentSkips contactName displayName then recentLoop env contactName cs
    else
      match env.fetchMessages c 1 with
      | .error _ => .error ()
      | .ok ms =>
        match ms.head? with
        | none => recentLoop env contactName cs
        | some m =>
          (recentLoop env contactName cs).map (recentMsgOf displayName c m :: ·)

/-- `getRecentMessages(contactName?, limit)`.  Note the guard reads the
raw `isReady` flag, not `isConnected()`. -/
def getRecentMessages (st : SvcState) (env : WaEnv)
    (contactName : Option String) (lim : Nat) : Except WaErr (List WaMessage) :=
  if !st.clientPresent || !st.isReady then .error .notConnected
  else
    match env.getChats with
    | .error _ => .error .clientErr
    | .ok chats =>
      match recentLoop env contactName (chats.take lim) with
      | .error _ => .error .clientErr
      | .ok msgs => .ok ((List.insertionSort tsGe msgs).take lim)

/-- The record pushed by `getUnreadMessages` for one message, with the
sender-name fallback chain `notifyName || fromName || chatName || from ||
'Unknown'`. -/
def unreadMsgOf (chatName : String) (isGroup : Bool) (m : RawMsg) : WaMessage :=
  let messageFrom := m.fromId
  let senderName :=
    orElseStr m.notifyName (orElseStr m.fromName
      (orElseStr chatName (orElseStr messageFrom "Unknown")))
  { id := m.msgId
    sender := senderName
    body := m.body
    tsMillis := m.timestamp * 1000
    isGroup := isGroup
    contactName :=
      if senderName ≠ "Unknown" ∧ senderName ≠ messageFrom then
        some senderName
      else none }

/-- Per-chat work of `getUnreadMessages`: any failure while fetching this
chat's messages is caught and the chat skipped (both the inner
`getContact`-related catch and the outer per-chat catch continue). -/
def unreadOfChat (env : WaEnv) (c : Chat) : List WaMessage :=
  if c.unreadCount = 0 then []
  else
    match env.fetchMessages c c.unreadCount with
    | .error _ => []
    | .ok ms => (ms.take c.unreadCount).map (unreadMsgOf c.name c.isGroup)

/-- `getUnreadMessages()`. -/
def getUnreadMessages (st : SvcState) (p : ClientProbe) (env : WaEnv) :
    Except WaErr (List WaMessage) :=
  if !st.clientPresent || !isConnectedB st p then .error .notConnected
  else
    match env.getChats with
    | .error _ => .error .clientErr
    | .ok chats =>
      .ok (List.insertionSort tsGe ((chats.map (unreadOfChat env)).flatten))

/-- Chat lookup by display-name substring (case-insensitive); a chat with
no name never matches. -/
def findChatByName (chats : List Chat) (lowerContactName : Str) : Option Chat :=
  chats.find? fun c =>
    c.name ≠ "" && containsStr (lowerS c.name.data) lowerContactName

/-- Contact-list fallback lookup: any throw from `getContacts` or
`getChatById` is caught and treated as "no match via this path". -/
def findViaContacts (env : WaEnv) (contactName : String) : Option Chat :=
  match env.getContacts with
  | .error _ => none
  | .ok contacts =>
    let lcn := lowerS contactName.data
    match contacts.find? (fun ct =>
        (ct.pushname ≠ "" && containsStr (lowerS ct.pushname.data) lcn) ||
          containsStr ct.number.data contactName.data) with
    | none => none
    | some ct =>
      match env.getChatById ct.idSerialized with
      | .error _ => none
      | .ok chat => some chat

/-- Shared target-chat resolution of `sendMessage` and
`getMessagesFromContact`: chat names first, then the contact list. -/
def findTargetChat (env : WaEnv) (chats : List Chat) (contactName : String) :
    Option Chat :=
  match findChatByName chats (lowerS contactName.data) with
  | some c => some c
  | none => findViaContacts env contactName

/-- `sendMessage(contactName, message)`. -/
def sendMessage (st : SvcState) (p : ClientProbe) (env : WaEnv)
    (contactName message : String) : Except WaErr Bool :=
  if !st.clientPresent || !isConnectedB st p then .error .notConnected
  else
    match env.getChats with
    | .error _ => .error .clientErr
    | .ok chats =>
      match findTargetChat env chats contactName with
      | none => .error (.contactNotFound contactName)
      | some c =>
        match env.sendTo c.idSerialized message with
        | .error _ => .error .clientErr
        | .ok _ => .ok true

/-- The chat scan of `replyToMessage`: 50 most recent messages per chat;
a fetch failure here propagates (no per-chat catch in this operation). -/
def replyLoop (env : WaEnv) (messageId replyText : String) :
    List Chat → Except WaErr Bool
  | [] => .error (.messageNotFound messageId)
  | c :: cs =>
    match env.fetchMessages c 50 with
    | .error _ => .error .clientErr
    | .ok ms =>
      match ms.find? (fun m => m.msgId == messageId) with
      | some m =>
        match env.replyTo m replyText with
        | .error _ => .error .clientErr
        | .ok _ => .ok true
      | none => replyLoop env messageId replyText cs

/-- `replyToMessage(messageId, replyText)`. -/
def replyToMessage (st : SvcState) (p : ClientProbe) (env : WaEnv)
    (messageId replyText : String) : Except WaErr Bool :=
  if !st.clientPresent || !isConnectedB st p then .error .notConnected
  else
    match env.getChats with
    | .error _ => .error .clientErr
    | .ok chats => replyLoop env messageId replyText chats

/-- The record built by `getMessagesFromContact` for one message. -/
def fromContactMsgOf (chatName : String) (isGroup : Bool) (m : RawMsg) :
    WaMessage :=
  { id := m.msgId
    sender := chatName
    body := m.body
    tsMillis := m.timestamp * 1000
    isGroup := isGroup
    contactName := if chatName ≠ "Unknown" then some chatName else none }

/-- `getMessagesFromContact(contactName, limit)`: the fetched messages
are mapped and returned as they are — no sort and no slice of its own. -/
def getMessagesFromContact (st : SvcState) (p : ClientProbe) (env : WaEnv)
    (contactName : String) (lim : Nat) : Except WaErr (List WaMessage) :=
  if !st.clientPresent || !isConnectedB st p then .error .notConnected
  else
    match env.getChats with
    | .error _ => .error .clientErr
    | .ok chats =>
      match findTargetChat env chats contactName with
      | none => .error (.contactNotFound contactName)
      | some tc =>
        match env.fetchMessages tc lim with
        | .error _ => .error .clientErr
        | .ok ms =>
          let chatName := orElseStr tc.name contactName
          .ok (ms.map (fromContactMsgOf chatName tc.isGroup))

/-! ### `initialize()`

Events arrive asynchronously while `initialize` sleeps, so the state the
poll reads at each tick is supplied as an observation sequence
`obs : Nat → PollState`: `obs i` is the `(isReady, qrCode)` pair the
method sees at its `i`-th read (i = 0 … 19 are the loop checks, `obs 20`
is the final read in the timeout return). -/

/-- The `(isReady, qrCode)` pair visible at one poll tick. -/
structure PollState where
  ready : Bool
  qr : Option String
deriving DecidableEq, Repr

/-- The value `initialize` resolves with. -/
structure InitResult where
  qrCode : Option String
  ready : Bool
deriving DecidableEq, Repr

/-- `initialize`'s result plus whether `client.initialize()` was invoked
(the observable side effect of interest). -/
structure InitOutcome where
  result : InitResult
  initCalled : Bool
deriving DecidableEq, Repr

/-- Classification of a throw from `client.initialize()` by the
message-pattern test for `destroyed`/`Session`/`Target closed`. -/
inductive InitThrow
  | corruption
  | other
deriving DecidableEq, Repr

/-- The poll loop: up to `fuel` ticks starting at observation `i`;
readiness is checked before the QR code at each tick. -/
def pollLoop (obs : Nat → PollState) : Nat → Nat → Option InitResult
  | _, 0 => none
  | i, fuel + 1 =>
    let s := obs i
    if s.ready then some { qrCode := none, ready := true }
    else if s.qr.isSome then some { qrCode := s.qr, ready := false }
    else pollLoop obs (i + 1) fuel

/-- A bounded poll of `n` ticks followed by the timeout return of the
state read at observation `n`. -/
def pollOrLast (obs : Nat → PollState) (n : Nat) : InitResult :=
  match pollLoop obs 0 n with
  | some r => r
  | none => { qrCode := (obs n).qr, ready := (obs n).ready }

/-- `initialize()`.  `initRes` is the outcome of the (at most one) call
to `client.initialize()`; on a corruption-classified throw the adapter
destroys and recreates the client once (`recreateRes`) and polls 10 more
ticks over a second observation stream `obs2`. -/
def initializeM (st0 : SvcState) (p : ClientProbe)
    (initRes : Except InitThrow Unit) (recreateRes : Except Unit Unit)
    (obs obs2 : Nat → PollState) : Except Unit InitOutcome :=
  if !st0.clientPresent then .error ()
  else if st0.isReady then
    .ok { result := { qrCode := none, ready := true }, initCalled := false }
  else if isClientInitialized st0 p then
    -- client already initialized: inspect stored state, else poll
    match st0.qrCode with
    | some q =>
      .ok { result := { qrCode := some q, ready := false },
            initCalled := false }
    | none => .ok { result := pollOrLast obs 20, initCalled := false }
  else
    match initRes with
    | .ok _ => .ok { result := pollOrLast obs 20, initCalled := true }
    | .error .other => .error ()
    | .error .corruption =>
      match recreateRes with
      | .error _ => .error ()
      | .ok _ => .ok { result := pollOrLast obs2 10, initCalled := true }

/-! ### Command executor (`handleWhatsAppCommand` in
`src/app/api/chat/route.ts`)

The bridge is abstracted to the results the executor observes
(`SvcView`); the output records the response text together with the
send/reply calls actually issued to the service. -/

/-- The service as the executor sees it. -/
structure SvcView where
  available : Bool
  connected : Bool
  unreadRes : Except WaErr (List WaMessage)
  recentRes : Option String → Nat → Except WaErr (List WaMessage)
  fromContactRes : String → Nat → Except WaErr (List WaMessage)
  sendRes : String → String → Except WaErr Bool
  replyRes : String → String → Except WaErr Bool

/-- Executor output: the spoken response plus the `sendMessage` /
`replyToMessage` calls that were issued. -/
structure ExecOut where
  response : String
  sends : List (String × String)
  replies : List (String × String)
deriving DecidableEq, Repr

/-- The `message` carried by each adapter error (JS `error.message`).
Client-raised errors are abstracted to a fixed text that matches none of
the executor's substring tests. -/
def waErrMsg : WaErr → String
  | .notConnected => "WhatsApp not connected. Please scan QR code first."
  | .contactNotFound n => "Contact \x22" ++ n ++ "\x22 not found"
  | .messageNotFound i => "Message with ID \x22" ++ i ++ "\x22 not found"
  | .clientErr => "underlying client failure"

/-- The executor's outer catch: not-connected errors become a connect
instruction, everything else a generic apology with the message text. -/
def rewriteErr (e : WaErr) : String :=
  if containsStr (waErrMsg e).data "not connected".data then
    "WhatsApp is not connected. Please connect WhatsApp first by saying \x22connect WhatsApp\x22 or scanning the QR code."
  else
    "Sorry, I couldn't complete that WhatsApp action: " ++ waErrMsg e

/-- `getTimeAgo` (floor division as `Math.floor`). -/
def getTimeAgo (now ts : Int) : String :=
  let diffMs := now - ts
  let diffMins := Int.fdiv diffMs 60000
  let diffHours := Int.fdiv diffMs 3600000
  let diffDays := Int.fdiv diffMs 86400000
  if diffMins < 1 then "just now"
  else if diffMins < 60 then
    toString diffMins ++ " minute" ++ (if 1 < diffMins then "s" else "") ++
      " ago"
  else if diffHours < 24 then
    toString diffHours ++ " hour" ++ (if 1 < diffHours then "s" else "") ++
      " ago"
  else
    toString diffDays ++ " day" ++ (if 1 < diffDays then "s" else "") ++
      " ago"

/-- One formatted line of the check response. -/
def checkLine (now : Int) (m : WaMessage) : String :=
  "From " ++ m.sender ++ ": \x22" ++ m.body ++ "\x22 (" ++
    getTimeAgo now m.tsMillis ++ ")\n"

/-- The check-branch response for a nonempty message list. -/
def checkResponse (now : Int) (msgs : List WaMessage) : String :=
  let n := msgs.length
  "You have " ++ toString n ++ " new message" ++
    (if 1 < n then "s" else "") ++ ":\n\n" ++
    String.join ((msgs.take 5).map (checkLine now)) ++
    (if 5 < n then
      "\nAnd " ++ toString (n - 5) ++ " more message" ++
        (if 1 < n - 5 then "s" else "") ++ "."
    else "")

/-- The read-branch response for a nonempty message list. -/
def readResponse (now : Int) (t : String) (msgs : List WaMessage) : String :=
  "Messages from " ++ t ++ ":\n\n" ++
    String.join (msgs.map fun m =>
      "\x22" ++ m.body ++ "\x22 (" ++ getTimeAgo now m.tsMillis ++ ")\n")

/-- The clarification prompt of the send branch when no message body was
parsed. -/
def clarifyPrompt (t : String) : String :=
  "What would you like to send to " ++ t ++
    "? Please tell me the message content. For example: \x22send hello to " ++
    t ++ "\x22 or \x22send to " ++ t ++ " saying hello there\x22."

/-- The apology used when a check hits the known `getContact()` breakage. -/
def contactBreakageApology : String :=
  "I'm having trouble reading some messages due to a WhatsApp Web update. Some chats may not be accessible, but I can still help with sending and replying to messages. Please try asking about specific contacts or use send/reply commands."

/-- `handleWhatsAppCommand`. -/
def handleWhatsAppCommand (cmd : ParsedCommand) (sv : SvcView) (now : Int) :
    ExecOut :=
  if !sv.available then
    { response := "WhatsApp service is not available. Please connect WhatsApp first.",
      sends := [], replies := [] }
  else if !sv.connected then
    { response := "WhatsApp is not connected. Please connect WhatsApp first by saying \x22connect WhatsApp\x22 or scanning the QR code in settings.",
      sends := [], replies := [] }
  else if cmd.action = .check then
    let res :=
      if (cmd.filters.bind (·.unread)).getD false then sv.unreadRes
      else
        let l := (cmd.filters.bind (·.limit)).getD 0
        sv.recentRes (cmd.filters.bind (·.contact)) (if l = 0 then 10 else l)
    match res with
    | .error e =>
      if containsStr (waErrMsg e).data "getIsMyContact".data ||
          containsStr (waErrMsg e).data "ContactMethods".data then
        { response := contactBreakageApology, sends := [], replies := [] }
      else { response := rewriteErr e, sends := [], replies := [] }
    | .ok msgs =>
      if msgs.isEmpty then
        { response := "You don't have any new messages right now.",
          sends := [], replies := [] }
      else { response := checkResponse now msgs, sends := [], replies := [] }
  else if cmd.action = .send ∧ cmd.target.isSome then
    let t := cmd.target.getD ""
    match cmd.message with
    | none => { response := clarifyPrompt t, sends := [], replies := [] }
    | some m =>
      match sv.sendRes t m with
      | .ok _ =>
        { response := "Message sent to " ++ t ++ ": \x22" ++ m ++ "\x22",
          sends := [(t, m)], replies := [] }
      | .error e =>
        { response := rewriteErr e, sends := [(t, m)], replies := [] }
  else if cmd.action = .reply ∧ cmd.message.isSome then
    let m := cmd.message.getD ""
    match cmd.target with
    | some t =>
      match sv.fromContactRes t 1 with
      | .error e => { response := rewriteErr e, sends := [], replies := [] }
      | .ok msgs =>
        match msgs.head? with
        | some m0 =>
          match sv.replyRes m0.id m with
          | .ok _ =>
            { response := "Replied to " ++ t ++ ": \x22" ++ m ++ "\x22",
              sends := [], replies := [(m0.id, m)] }
          | .error e =>
            { response := rewriteErr e, sends := [], replies := [(m0.id, m)] }
        | none =>
          { response := "No recent messages from " ++ t ++ " to reply to.",
            sends := [], replies := [] }
    | none =>
      { response := "Please specify who to reply to.", sends := [],
        replies := [] }
  else if cmd.action = .read ∧ cmd.target.isSome then
    let t := cmd.target.getD ""
    match sv.fromContactRes t 10 with
    | .error e => { response := rewriteErr e, sends := [], replies := [] }
    | .ok msgs =>
      if msgs.isEmpty then
        { response := "No messages found from " ++ t ++ ".",
          sends := [], replies := [] }
      else
        { response := readResponse now t msgs, sends := [], replies := [] }
  else
    { response := "I'm not sure what you want me to do with WhatsApp. Try asking to check messages, send a message, or reply to someone.",
      sends := [], replies := [] }

/-! ### Concrete fixtures for counterexamples and witnesses -/

/-- A probe where both hidden fields read as absent without throwing. -/
def probeOk : ClientProbe := { pupPage := .ok none, info := .ok none }

/-- The fully ready state. -/
def readySt : SvcState :=
  { clientPresent := true, isReady := true, isAuthenticated := true,
    qrCode := none }

/-- A chat used by the concrete environments. -/
def chatBob : Chat :=
  { idSerialized := "bob@c.us", idUser := "bob", name := "Bob",
    unreadCount := 0, isGroup := false }

/-- An older raw message (timestamp 1). -/
def msgFirst : RawMsg :=
  { msgId := "m1", body := "first", timestamp := 1, fromId := "",
    notifyName := "", fromName := "" }

/-- A newer raw message (timestamp 2). -/
def msgSecond : RawMsg :=
  { msgId := "m2", body := "second", timestamp := 2, fromId := "",
    notifyName := "", fromName := "" }

/-- Environment with one chat whose fetch returns two messages in
ascending timestamp order. -/
def envBob : WaEnv :=
  { getChats := .ok [chatBob]
    fetchMessages := fun _ _ => .ok [msgFirst, msgSecond]
    getContacts := .ok []
    getChatById := fun _ => .error ()
    sendTo := fun _ _ => .ok ()
    replyTo := fun _ _ => .ok () }

/-- A chat whose message fetch is broken (name-resolution failure). -/
def chatAlice : Chat :=
  { idSerialized := "alice@c.us", idUser := "alice", name := "Alice",
    unreadCount := 2, isGroup := false }

/-- The unread chat that still works. -/
def chatBobUnread : Chat :=
  { idSerialized := "bob@c.us", idUser := "bob", name := "Bob",
    unreadCount := 1, isGroup := false }

/-- The unread message of the working chat. -/
def msgBobUnread : RawMsg :=
  { msgId := "mb", body := "hello", timestamp := 5, fromId := "bob@c.us",
    notifyName := "Bobby", fromName := "" }

/-- Environment where fetching chat Alice throws and chat Bob succeeds. -/
def envAliceBroken : WaEnv :=
  { getChats := .ok [chatAlice, chatBobUnread]
    fetchMessages := fun c _ =>
      if c.idSerialized = "bob@c.us" then .ok [msgBobUnread] else .error ()
    getContacts := .ok []
    getChatById := fun _ => .error ()
    sendTo := fun _ _ => .ok ()
    replyTo := fun _ _ => .ok () }

/-- An observation stream that never shows readiness or a QR code. -/
def obsQuiet : Nat → PollState := fun _ => { ready := false, qr := none }

/-! ## Theorems -/

/-- C2, counterexample: `parseCommand "read messages from Mike"` yields
action `check` (the utterance contains the check-branch trigger
`"read message"`), not the claimed `read`. -/
theorem C2_read_from_mike_counterexample :
    (parseCommand "read messages from Mike").map ParsedCommand.action =
      some CmdAction.check ∧ CmdAction.check ≠ CmdAction.read := by
  decide

/-- C2, amended: `parseCommand "read messages from Mike"` returns a
`check` command with target `"Mike"` and the unread filter (the
`"read message"` substring fires the higher-priority check branch);
`parseCommand "read my messages"` leaves the action `unknown`; and in
general, when no contact name is extractable the action is never `read`,
and a messaging utterance firing none of the check/send/reply triggers is
left `unknown`. -/
theorem C2_read_requires_contact :
    parseCommand "read messages from Mike" =
      some { type := CmdType.whatsapp, action := CmdAction.check,
             target := some "Mike",
             filters := some { unread := some true, contact := some "Mike",
                               limit := none } } ∧
    parseCommand "read my messages" =
      some { type := CmdType.whatsapp, action := CmdAction.unknown } ∧
    (∀ lm m : Str, extractContactName m = none →
      (parseWhatsAppCommand lm m).action ≠ CmdAction.read) ∧
    (∀ lm m : Str, extractContactName m = none →
      checkTrigger lm = false → sendTrigger lm = false →
      replyTrigger lm = false →
      (parseWhatsAppCommand lm m).action = CmdAction.unknown) := by
  refine ⟨by decide, by decide, ?_, ?_⟩
  · intro lm m h
    unfold parseWhatsAppCommand
    split
    · simp [h]
    · split
      · simp
      · split
        · simp
        · split
          · simp [h]
          · simp
  · intro lm m h hc hs hr
    unfold parseWhatsAppCommand
    simp only [hc, hs, hr, h]
    split <;> simp_all

/-- C2, witness for the universally quantified parts: on
`"read my messages"` no contact is extractable, so the action is not
`read`. -/
theorem C2_read_requires_contact_witness :
    (parseWhatsAppCommand (trimS (lowerS "read my messages".data))
      "read my messages".data).action ≠ CmdAction.read :=
  C2_read_requires_contact.2.2.1 _ _ (by decide)

/-- C3, counterexample: `parseCommand "reply to Sarah with Thanks!"` does
not return the claimed reply command (the utterance contains none of the
domain trigger keywords whatsapp/message/text/chat). -/
theorem C3_reply_sarah_counterexample :
    parseCommand "reply to Sarah with Thanks!" ≠
      some { type := CmdType.whatsapp, action := CmdAction.reply,
             target := some "Sarah", message := some "Thanks!" } := by
  decide

/-- C3, amended: `parseCommand "reply to Sarah with Thanks!"` returns
`none`: the utterance contains no domain trigger keyword, so it is not a
command at all and falls through to general conversation. -/
theorem C3_reply_sarah_parses_to_none :
    parseCommand "reply to Sarah with Thanks!" = none := by
  decide

/-- C7: `parseCommand "send a message to John"` yields a send command
with target `"John"` and no message (the filler phrase is rejected), and
for every send command with a target but no message the executor, when
the service is available and connected, returns the clarification prompt
asking for the message content and issues no send or reply call. -/
theorem C7_send_clarification :
    parseCommand "send a message to John" =
      some { type := CmdType.whatsapp, action := CmdAction.send,
             target := some "John" } ∧
    (∀ (cmd : ParsedCommand) (sv : SvcView) (now : Int) (t : String),
      sv.available = true → sv.connected = true →
      cmd.action = CmdAction.send → cmd.target = some t →
      cmd.message = none →
      handleWhatsAppCommand cmd sv now =
        { response := clarifyPrompt t, sends := [], replies := [] }) := by
  refine ⟨by decide, ?_⟩
  intro cmd sv now t hav hconn hact htgt hmsg
  unfold handleWhatsAppCommand
  simp [hav, hconn, hact, htgt, hmsg]

/-- C7, witness: the parsed `"send a message to John"` command run
against an available, connected service view produces exactly the
clarification prompt and no send. -/
theorem C7_send_clarification_witness :
    handleWhatsAppCommand
      { type := CmdType.whatsapp, action := CmdAction.send,
        target := some "John" }
      { available := true, connected := true, unreadRes := .ok [],
        recentRes := fun _ _ => .ok [], fromContactRes := fun _ _ => .ok [],
        sendRes := fun _ _ => .ok true, replyRes := fun _ _ => .ok true }
      0 =
      { response := clarifyPrompt "John", sends := [], replies := [] } :=
  C7_send_clarification.2 _ _ 0 "John" rfl rfl rfl rfl rfl

/-- C1, counterexample: after the event sequence qr → authenticated (no
ready), `isConnected()` is true yet the stored QR payload is not null —
the `authenticated` handler does not clear `qrCode`. -/
theorem C1_qr_after_authenticated_counterexample :
    isConnectedB (runEvents initialSvcState
        [WaEvent.qr "QR-PAYLOAD", WaEvent.authenticated])
      { pupPage := Except.ok none, info := Except.ok none } = true ∧
    getQRCode (runEvents initialSvcState
        [WaEvent.qr "QR-PAYLOAD", WaEvent.authenticated]) ≠ none := by
  decide

/-- C1, amended: the QR payload is cleared only by the `ready` and
`disconnected` handlers, not by `authenticated`; hence after
qr → authenticated (no ready) `isConnected()` is true — for every probe
outcome — while `getQRCode()` still returns the stored payload. -/
theorem C1_qr_cleared_only_on_ready_or_disconnect :
    ∀ (q : String) (p : ClientProbe) (st : SvcState) (r : String),
      isConnectedB (runEvents initialSvcState
          [WaEvent.qr q, WaEvent.authenticated]) p = true ∧
      getQRCode (runEvents initialSvcState
          [WaEvent.qr q, WaEvent.authenticated]) = some q ∧
      getQRCode (handleEvent st WaEvent.ready) = none ∧
      getQRCode (handleEvent st (WaEvent.disconnected r)) = none := by
  intro q p st r
  refine ⟨?_, rfl, rfl, rfl⟩
  show isConnectedB
    { clientPresent := true, isReady := false, isAuthenticated := true,
      qrCode := some q } p = true
  unfold isConnectedB isConnectedE
  rcases p with ⟨pp, info⟩
  cases info <;> simp

/-- C6, counterexample: in the authenticated-but-not-ready state, a
throwing `info` probe does not make `isConnected()` report "not
connected" — the catch branch returns the `isAuthenticated` flag, which
is true. -/
theorem C6_probe_error_counterexample :
    isConnectedB
      { clientPresent := true, isReady := false, isAuthenticated := true,
        qrCode := none }
      { pupPage := Except.error (), info := Except.error () } = true := by
  decide

/-- C6, amended: `isConnected()` never throws (every probe outcome is
caught and a boolean is returned); a probe error with the authenticated
flag down yields `false`, but with the authenticated flag up the error is
swallowed and the method still returns `true`. -/
theorem C6_isConnected_never_throws :
    ∀ (st : SvcState) (p : ClientProbe),
      (∃ r, isConnectedE st p = Except.ok r) ∧
      (st.isReady = false → st.isAuthenticated = false →
        p.pupPage = Except.error () → isConnectedB st p = false) ∧
      (st.clientPresent = true → st.isAuthenticated = true →
        isConnectedB st p = true) := by
  intro st p
  rcases st with ⟨cp, rdy, auth, qr⟩
  rcases p with ⟨pp, info⟩
  refine ⟨?_, ?_, ?_⟩
  · unfold isConnectedE
    repeat' split <;> try exact ⟨_, rfl⟩
  · intro h1 h2 h3
    simp only at h1 h2 h3
    subst h1; subst h2; subst h3
    unfold isConnectedB isConnectedE isClientInitialized
    cases cp <;> simp
  · intro h1 h2
    simp only at h1 h2
    subst h1; subst h2
    unfold isConnectedB isConnectedE
    cases rdy <;> cases info <;> simp

/-- C6, witness: a concrete uninitialised state with both probes throwing
is reported as not connected. -/
theorem C6_isConnected_never_throws_witness :
    isConnectedB
      { clientPresent := true, isReady := false, isAuthenticated := false,
        qrCode := none }
      { pupPage := Except.error (), info := Except.error () } = false :=
  (C6_isConnected_never_throws _ _).2.1 rfl rfl rfl

/-- A null client is always reported as not connected. -/
theorem notConnected_of_clientAbsent (st : SvcState) (p : ClientProbe)
    (h : st.clientPresent = false) : isConnectedB st p = false := by
  unfold isConnectedB isConnectedE
  simp [h]

/-- The common guard `!this.client || !this.isConnected()` trips exactly
when `isConnected()` is false. -/
theorem guard_iff (st : SvcState) (p : ClientProbe) :
    (!st.clientPresent || !isConnectedB st p) = true ↔
      isConnectedB st p = false := by
  cases hc : st.clientPresent
  · simp [notConnected_of_clientAbsent st p hc]
  · simp

/-- A guarded operation yields the not-connected error exactly when the
guard trips, provided its body never does. -/
theorem guardedIff {α : Type} (g : Bool) (body : Except WaErr α)
    (hbody : body ≠ .error .notConnected) :
    ((if g then Except.error WaErr.notConnected else body) =
        .error .notConnected) ↔ g = true := by
  cases g <;> simp [hbody]

/-- The chat scan of `replyToMessage` only fails with not-found or a
client error, never with the not-connected error. -/
theorem replyLoop_ne_notConnected (env : WaEnv) (mid rt : String) :
    ∀ cs, replyLoop env mid rt cs ≠ .error .notConnected := by
  intro cs
  induction cs with
  | nil => simp [replyLoop]
  | cons c cs ih =>
    unfold replyLoop
    rcases hf : env.fetchMessages c 50 with e | ms
    · simp
    · rcases hfind : ms.find? (fun m => m.msgId == mid) with _ | m
      · simpa [hfind] using ih
      · rcases hr : env.replyTo m rt with e | u <;> simp [hfind, hr]

/-- C4, counterexample: in the authenticated-but-not-ready state
`isConnected()` is true, yet `getRecentMessages` (whose guard reads the
raw `isReady` flag) throws its not-connected error. -/
theorem C4_recent_guard_counterexample :
    isConnectedB
      { clientPresent := true, isReady := false, isAuthenticated := true,
        qrCode := none }
      { pupPage := Except.ok none, info := Except.ok none } = true ∧
    getRecentMessages
      { clientPresent := true, isReady := false, isAuthenticated := true,
        qrCode := none }
      { getChats := .ok [], fetchMessages := fun _ _ => .ok [],
        getContacts := .ok [], getChatById := fun _ => .error (),
        sendTo := fun _ _ => .ok (), replyTo := fun _ _ => .ok () }
      none 10 = .error .notConnected :=
  ⟨rfl, rfl⟩

/-- C4, amended: `getUnreadMessages`, `sendMessage`, `replyToMessage` and
`getMessagesFromContact` throw the not-connected error exactly when
`isConnected()` is false; `getRecentMessages` instead throws it exactly
when the client is null or the raw `isReady` flag is down — a strictly
stronger condition, so in the authenticated-but-not-ready window it
throws although `isConnected()` is true. -/
theorem C4_not_connected_guards :
    ∀ (st : SvcState) (p : ClientProbe) (env : WaEnv)
      (cn msg mid rt : String) (cno : Option String) (lim : Nat),
      (getUnreadMessages st p env = .error .notConnected ↔
        isConnectedB st p = false) ∧
      (sendMessage st p env cn msg = .error .notConnected ↔
        isConnectedB st p = false) ∧
      (replyToMessage st p env mid rt = .error .notConnected ↔
        isConnectedB st p = false) ∧
      (getMessagesFromContact st p env cn lim = .error .notConnected ↔
        isConnectedB st p = false) ∧
      (getRecentMessages st env cno lim = .error .notConnected ↔
        (st.clientPresent = false ∨ st.isReady = false)) := by
  intro st p env cn msg mid rt cno lim
  refine ⟨?_, ?_, ?_, ?_, ?_⟩
  · unfold getUnreadMessages
    rw [guardedIff _ _ (by rcases env.getChats with e | chats <;> simp)]
    exact guard_iff st p
  · unfold sendMessage
    rw [guardedIff]
    · exact guard_iff st p
    · rcases env.getChats with e | chats
      · simp
      · rcases ht : findTargetChat env chats cn with _ | c
        · simp [ht]
        · rcases hs : env.sendTo c.idSerialized msg with e | u <;>
            simp [ht, hs]
  · unfold replyToMessage
    rw [guardedIff]
    · exact guard_iff st p
    · rcases env.getChats with e | chats
      · simp
      · simpa using replyLoop_ne_notConnected env mid rt chats
  · unfold getMessagesFromContact
    rw [guardedIff]
    · exact guard_iff st p
    · rcases env.getChats with e | chats
      · simp
      · rcases ht : findTargetChat env chats cn with _ | tc
        · simp [ht]
        · rcases hf : env.fetchMessages tc lim with e | ms <;>
            simp [ht, hf]
  · unfold getRecentMessages
    rw [guardedIff]
    · cases st.clientPresent <;> cases st.isReady <;> simp
    · rcases env.getChats with e | chats
      · simp
      · rcases hl : recentLoop env cno (chats.take lim) with e | msgs <;>
          simp [hl]

/-- A prefix of an insertion sort is sorted. -/
theorem sorted_take_insertionSort (msgs : List WaMessage) (n : Nat) :
    ((List.insertionSort tsGe msgs).take n).Sorted tsGe :=
  List.Pairwise.sublist (List.take_sublist n _)
    (List.sorted_insertionSort tsGe msgs)

/-- C5, counterexample: `getMessagesFromContact` returns the fetched
messages exactly as the client delivered them — here in ascending
timestamp order, so the result is not sorted descending. -/
theorem C5_from_contact_unsorted_counterexample :
    getMessagesFromContact readySt probeOk envBob "Bob" 10 =
      .ok [{ id := "m1", sender := "Bob", body := "first", tsMillis := 1000,
             isGroup := false, contactName := some "Bob" },
           { id := "m2", sender := "Bob", body := "second",
             tsMillis := 2000, isGroup := false,
             contactName := some "Bob" }] ∧
    ¬ List.Sorted tsGe
        [{ id := "m1", sender := "Bob", body := "first", tsMillis := 1000,
           isGroup := false, contactName := some "Bob" },
         { id := "m2", sender := "Bob", body := "second", tsMillis := 2000,
           isGroup := false, contactName := some "Bob" }] := by
  constructor
  · rfl
  · intro h
    have := List.rel_of_pairwise_cons h (List.mem_singleton.mpr rfl)
    simp [tsGe] at this

/-- C5, amended: `getUnreadMessages` and `getRecentMessages` return
results sorted by timestamp descending, and `getRecentMessages` caps the
result at the caller-supplied limit; `getMessagesFromContact`, by
contrast, passes the limit to the client but returns the fetched
messages unchanged — with no sort and no cap of its own. -/
theorem C5_ordering_and_limit :
    ∀ (st : SvcState) (p : ClientProbe) (env : WaEnv) (cn : String)
      (cno : Option String) (lim : Nat),
      (∀ l, getUnreadMessages st p env = .ok l → l.Sorted tsGe) ∧
      (∀ l, getRecentMessages st env cno lim = .ok l →
        l.Sorted tsGe ∧ l.length ≤ lim) ∧
      (∀ cs tc ms, env.getChats = .ok cs →
        findTargetChat env cs cn = some tc →
        env.fetchMessages tc lim = .ok ms →
        st.clientPresent = true → isConnectedB st p = true →
        getMessagesFromContact st p env cn lim =
          .ok (ms.map (fromContactMsgOf (orElseStr tc.name cn)
            tc.isGroup))) := by
  intro st p env cn cno lim
  refine ⟨?_, ?_, ?_⟩
  · intro l h
    unfold getUnreadMessages at h
    split at h
    · simp at h
    · split at h
      · simp at h
      · rw [Except.ok.injEq] at h
        subst h
        exact List.sorted_insertionSort tsGe _
  · intro l h
    unfold getRecentMessages at h
    split at h
    · simp at h
    · split at h
      · simp at h
      · split at h
        · simp at h
        · rw [Except.ok.injEq] at h
          subst h
          refine ⟨sorted_take_insertionSort _ lim, ?_⟩
          simp [List.length_take]
  · intro cs tc ms hc ht hf hcp hconn
    unfold getMessagesFromContact
    simp [hcp, hconn, hc, ht, hf]

/-- C5, witness: the amended theorem applied to the concrete one-chat
environment reproduces the client's (ascending) order untouched. -/
theorem C5_ordering_and_limit_witness :
    getMessagesFromContact readySt probeOk envBob "Bob" 10 =
      .ok ([msgFirst, msgSecond].map
        (fromContactMsgOf (orElseStr chatBob.name "Bob") chatBob.isGroup)) :=
  (C5_ordering_and_limit readySt probeOk envBob "Bob" none 10).2.2
    [chatBob] chatBob [msgFirst, msgSecond] rfl rfl rfl rfl rfl

/-- C9: `getUnreadMessages` tolerates per-chat failures — whenever the
guard passes and the chat listing succeeds, the operation returns a
result list (it never aborts because some chat's fetch throws), and
every message of every chat whose fetch succeeds appears in that result,
regardless of other chats failing. -/
theorem C9_unread_tolerates_chat_failures :
    ∀ (st : SvcState) (p : ClientProbe) (env : WaEnv) (cs : List Chat)
      (B : Chat) (ms : List RawMsg) (m : RawMsg),
      st.clientPresent = true → isConnectedB st p = true →
      env.getChats = .ok cs →
      B ∈ cs → B.unreadCount ≠ 0 →
      env.fetchMessages B B.unreadCount = .ok ms →
      m ∈ ms.take B.unreadCount →
      ∃ l, getUnreadMessages st p env = .ok l ∧
        unreadMsgOf B.name B.isGroup m ∈ l := by
  intro st p env cs B ms m hcp hconn hc hB hcount hf hm
  unfold getUnreadMessages
  simp only [hcp, hconn, Bool.not_true, Bool.or_self, Bool.false_eq_true,
    if_false, hc]
  refine ⟨_, rfl, ?_⟩
  rw [List.mem_insertionSort]
  refine List.mem_flatten.mpr ⟨unreadOfChat env B, List.mem_map_of_mem _ hB, ?_⟩
  unfold unreadOfChat
  rw [if_neg hcount, hf]
  exact List.mem_map_of_mem _ hm

/-- C9, witness: with chat Alice's fetch throwing and chat Bob's
succeeding, Bob's unread message still appears in the result. -/
theorem C9_unread_tolerates_chat_failures_witness :
    ∃ l, getUnreadMessages readySt probeOk envAliceBroken = .ok l ∧
      unreadMsgOf chatBobUnread.name chatBobUnread.isGroup msgBobUnread ∈ l :=
  C9_unread_tolerates_chat_failures readySt probeOk envAliceBroken
    [chatAlice, chatBobUnread] chatBobUnread [msgBobUnread] msgBobUnread
    rfl rfl rfl (by decide) (by decide) rfl (by decide)

/-- The chat loop of `getRecentMessages` contributes at most one message
per examined chat. -/
theorem recentLoop_length (env : WaEnv) (cno : Option String) :
    ∀ (cs : List Chat) (l : List WaMessage),
      recentLoop env cno cs = .ok l → l.length ≤ cs.length := by
  intro cs
  induction cs with
  | nil =>
    intro l h
    simp only [recentLoop, Except.ok.injEq] at h
    subst h
    simp
  | cons c cs ih =>
    intro l h
    unfold recentLoop at h
    dsimp only at h
    by_cases hs : recentSkips cno (chatDisplayName c) = true
    · rw [if_pos hs] at h
      exact le_trans (ih l h) (by simp)
    · rw [if_neg hs] at h
      rcases hfm : env.fetchMessages c 1 with e | ms <;> rw [hfm] at h <;>
        dsimp only at h
      · simp at h
      · rcases hh : ms.head? with _ | m <;> rw [hh] at h <;> dsimp only at h
        · exact le_trans (ih l h) (by simp)
        · rcases hr : recentLoop env cno cs with e | tl <;> rw [hr] at h
          · simp [Except.map] at h
          · simp only [Except.map, Except.ok.injEq] at h
            subst h
            have := ih tl hr
            simp only [List.length_cons]
            omega

/-- The result of the chat loop depends on each chat's fetch only
through its outcome and head message. -/
theorem recentLoop_congr (env env2 : WaEnv) (cno : Option String)
    (hf : ∀ c, (env.fetchMessages c 1).map List.head? =
      (env2.fetchMessages c 1).map List.head?) :
    ∀ cs, recentLoop env cno cs = recentLoop env2 cno cs := by
  intro cs
  induction cs with
  | nil => rfl
  | cons c cs ih =>
    unfold recentLoop
    dsimp only
    have hfc := hf c
    by_cases hs : recentSkips cno (chatDisplayName c) = true
    · simp only [if_pos hs]
      exact ih
    · simp only [if_neg hs]
      rcases h1 : env.fetchMessages c 1 with e | ms <;>
        rcases h2 : env2.fetchMessages c 1 with e2 | ms2 <;>
        rw [h1, h2] at hfc <;> dsimp only
      · exact absurd hfc (by simp [Except.map])
      · exact absurd hfc (by simp [Except.map])
      · simp only [Except.map, Except.ok.injEq] at hfc
        rw [← hfc]
        cases ms.head? with
        | none => exact ih
        | some m => rw [ih]

/-- C10: `getRecentMessages` examines only the first `limit` chats in the
client-returned order (replacing the listing by its `limit`-prefix does
not change the result), fetches at most the most recent message of each
examined chat (the result depends on each fetch only through its head
message), and returns at most one message per examined chat and at most
`limit` in total. -/
theorem C10_recent_first_limit_chats :
    ∀ (st : SvcState) (env env2 : WaEnv) (cno : Option String) (lim : Nat)
      (cs : List Chat) (l : List WaMessage),
      (env.getChats = .ok cs →
        getRecentMessages st env cno lim =
          getRecentMessages st { env with getChats := .ok (cs.take lim) }
            cno lim) ∧
      (env.getChats = .ok cs → getRecentMessages st env cno lim = .ok l →
        l.length ≤ lim ∧ l.length ≤ (cs.take lim).length) ∧
      (env2.getChats = env.getChats →
        (∀ c, (env.fetchMessages c 1).map List.head? =
          (env2.fetchMessages c 1).map List.head?) →
        getRecentMessages st env cno lim =
          getRecentMessages st env2 cno lim) := by
  intro st env env2 cno lim cs l
  refine ⟨?_, ?_, ?_⟩
  · intro hc
    unfold getRecentMessages
    simp only [hc, List.take_take, min_self]
    rw [recentLoop_congr env { env with getChats := .ok (cs.take lim) } cno
      (fun c => rfl) (cs.take lim)]
  · intro hc h
    unfold getRecentMessages at h
    split at h
    · simp at h
    · split at h
      · simp_all
      · rename_i chats heq
        rw [hc] at heq
        rw [Except.ok.injEq] at heq
        subst heq
        split at h
        · simp at h
        · rename_i msgs hr
          rw [Except.ok.injEq] at h
          subst h
          constructor
          · simp [List.length_take]
          · calc ((List.insertionSort tsGe msgs).take lim).length
                ≤ (List.insertionSort tsGe msgs).length := by
                  simp [List.length_take]
              _ = msgs.length := (List.perm_insertionSort tsGe msgs).length_eq
              _ ≤ (cs.take lim).length := recentLoop_length env cno _ msgs hr
  · intro he hf
    unfold getRecentMessages
    rw [he]
    rcases hg : env.getChats with e | chats <;> dsimp only
    all_goals first
      | rfl
      | rw [recentLoop_congr env env2 cno hf]

/-- C10, witness: with one chat holding two recent messages and limit 1,
the result has one message — bounded by the limit and by the number of
examined chats. -/
theorem C10_recent_first_limit_chats_witness :
    ([{ id := "m1", sender := "Bob", body := "first", tsMillis := 1000,
        isGroup := false, contactName := some "Bob" }] :
      List WaMessage).length ≤ 1 ∧
    ([{ id := "m1", sender := "Bob", body := "first", tsMillis := 1000,
        isGroup := false, contactName := some "Bob" }] :
      List WaMessage).length ≤ ([chatBob].take 1).length :=
  (C10_recent_first_limit_chats readySt envBob envBob none 1 [chatBob]
    _).2.1 rfl rfl

/-- The poll loop reads only observations `i`, …, `i + n - 1`. -/
theorem pollLoop_ext (obs obs' : Nat → PollState) :
    ∀ (n i : Nat), (∀ j, j < n → obs (i + j) = obs' (i + j)) →
      pollLoop obs i n = pollLoop obs' i n := by
  intro n
  induction n with
  | zero => intro i _; rfl
  | succ n ih =>
    intro i h
    have h0 : obs i = obs' i := by simpa using h 0 (Nat.succ_pos n)
    unfold pollLoop
    dsimp only
    rw [h0]
    split
    · rfl
    · split
      · rfl
      · refine ih (i + 1) fun j hj => ?_
        have := h (j + 1) (Nat.succ_lt_succ hj)
        rwa [show i + (j + 1) = i + 1 + j by omega] at this

/-- A trigger-free window makes the poll loop come up empty. -/
theorem pollLoop_none (obs : Nat → PollState) :
    ∀ (n i : Nat),
      (∀ j, j < n → (obs (i + j)).ready = false ∧ (obs (i + j)).qr = none) →
      pollLoop obs i n = none := by
  intro n
  induction n with
  | zero => intro i _; rfl
  | succ n ih =>
    intro i h
    have h0 := h 0 (Nat.succ_pos n)
    rw [Nat.add_zero] at h0
    unfold pollLoop
    dsimp only
    rw [h0.1, h0.2]
    simp only [Bool.false_eq_true, if_false, Option.isSome_none]
    refine ih (i + 1) fun j hj => ?_
    have := h (j + 1) (Nat.succ_lt_succ hj)
    rwa [show i + (j + 1) = i + 1 + j by omega] at this

/-- A trigger-free prefix of length `k` shifts the poll loop forward. -/
theorem pollLoop_clean_shift (obs : Nat → PollState) :
    ∀ (k n i : Nat), k < n →
      (∀ j, j < k → (obs (i + j)).ready = false ∧ (obs (i + j)).qr = none) →
      pollLoop obs i n = pollLoop obs (i + k) (n - k) := by
  intro k
  induction k with
  | zero => intro n i _ _; simp
  | succ k ih =>
    intro n i hkn h
    rcases n with _ | m
    · omega
    · have h0 := h 0 (Nat.succ_pos k)
      rw [Nat.add_zero] at h0
      have hstep : pollLoop obs i (m + 1) = pollLoop obs (i + 1) m := by
        rw [pollLoop]
        rw [h0.1, h0.2]
        simp
      rw [hstep, ih m (i + 1) (by omega) fun j hj => ?_]
      · rw [show i + 1 + k = i + (k + 1) by omega,
          show m - k = m + 1 - (k + 1) by omega]
      · have := h (j + 1) (Nat.succ_lt_succ hj)
        rwa [show i + (j + 1) = i + 1 + j by omega] at this

/-- C8: `initialize()` is bounded and non-failing on timeout.  If already
ready it returns `{ready := true}` at once with no `client.initialize()`
call; its outcome depends on the observation stream only through reads
0…20; whenever the poll is entered (client present, not ready, and
either already initialized with no stored QR, or freshly initialized
without error) the outcome is `pollOrLast obs 20`; and `pollOrLast`
returns the first tick's readiness (checked before the QR code) or QR
code among the 20 ticks, or — with no trigger in the whole budget — the
last-known state as a value, not an error. -/
theorem C8_initialize_bounded_poll :
    ∀ (st0 : SvcState) (p : ClientProbe) (ir : Except InitThrow Unit)
      (rr : Except Unit Unit) (obs obs2 obs' : Nat → PollState),
      (st0.clientPresent = true → st0.isReady = true →
        initializeM st0 p ir rr obs obs2 =
          .ok { result := { qrCode := none, ready := true },
                initCalled := false }) ∧
      ((∀ i, i ≤ 20 → obs i = obs' i) →
        initializeM st0 p ir rr obs obs2 =
          initializeM st0 p ir rr obs' obs2) ∧
      (st0.clientPresent = true → st0.isReady = false →
        (isClientInitialized st0 p = true ∧ st0.qrCode = none) ∨
          (isClientInitialized st0 p = false ∧ ir = .ok ()) →
        ∃ b, initializeM st0 p ir rr obs obs2 =
          .ok { result := pollOrLast obs 20, initCalled := b }) ∧
      (∀ k, k < 20 →
        (∀ j, j < k → (obs j).ready = false ∧ (obs j).qr = none) →
        ((obs k).ready = true →
          pollOrLast obs 20 = { qrCode := none, ready := true }) ∧
        ((obs k).ready = false → (obs k).qr.isSome = true →
          pollOrLast obs 20 = { qrCode := (obs k).qr, ready := false })) ∧
      ((∀ j, j < 20 → (obs j).ready = false ∧ (obs j).qr = none) →
        pollOrLast obs 20 =
          { qrCode := (obs 20).qr, ready := (obs 20).ready }) := by
  intro st0 p ir rr obs obs2 obs'
  refine ⟨?_, ?_, ?_, ?_, ?_⟩
  · intro hcp hrdy
    unfold initializeM
    rw [hcp, hrdy]
    rfl
  · intro hagree
    have hpoll : pollOrLast obs 20 = pollOrLast obs' 20 := by
      unfold pollOrLast
      rw [pollLoop_ext obs obs' 20 0
        (fun j hj => by simpa using hagree j (by omega)), hagree 20 le_rfl]
    unfold initializeM
    rw [hpoll]
  · intro hcp hrdy hcase
    unfold initializeM
    rcases hcase with ⟨hinit, hqr⟩ | ⟨hinit, hir⟩
    · simp only [hcp, hrdy, hinit, hqr, Bool.not_true, Bool.false_eq_true,
        if_false, if_true]
      exact ⟨false, rfl⟩
    · simp only [hcp, hrdy, hinit, hir, Bool.not_true, Bool.false_eq_true,
        if_false, if_true]
      exact ⟨true, rfl⟩
  · intro k hk hclean
    have hshift : pollLoop obs 0 20 = pollLoop obs k (20 - k) := by
      have := pollLoop_clean_shift obs k 20 0 hk
        (fun j hj => by simpa using hclean j hj)
      simpa using this
    have hpos : ∃ m, 20 - k = m + 1 := ⟨19 - k, by omega⟩
    rcases hpos with ⟨m, hm⟩
    constructor
    · intro hready
      unfold pollOrLast
      rw [hshift, hm]
      unfold pollLoop
      dsimp only
      rw [hready]
      rfl
    · intro hready hqr
      unfold pollOrLast
      rw [hshift, hm]
      unfold pollLoop
      dsimp only
      rw [hready, hqr]
      rfl
  · intro hclean
    unfold pollOrLast
    rw [pollLoop_none obs 20 0 (fun j hj => by simpa using hclean j hj)]

/-- C8, witness: with the client present and already ready, `initialize`
returns readiness immediately without calling `client.initialize()`. -/
theorem C8_initialize_bounded_poll_witness :
    initializeM readySt probeOk (Except.ok ()) (Except.ok ())
      obsQuiet obsQuiet =
      .ok { result := { qrCode := none, ready := true },
            initCalled := false } :=
  (C8_initialize_bounded_poll readySt probeOk (Except.ok ()) (Except.ok ())
    obsQuiet obsQuiet obsQuiet).1 rfl rfl

end Aetherion
